import Mathlib

/-!
# Verification of the event-driven orchestration core

Shallow embedding of the Python sources of `pt-web-automation`
(`app/core/event.py`, `app/services/download.py`,
`app/services/subscription.py`, `app/services/watch.py`,
`app/models/metadata.py`) together with theorems settling the spec
claims about the event bus, the download queue, the subscription
scheduler, the reconciliation handler and the filesystem watcher.

Conventions of the embedding:
* Python `async def` functions that are properly awaited are modelled as
  ordinary Lean functions (explicit state in, state out).
* Calling a coroutine function *without* `await` in Python creates a
  coroutine object that is discarded and never runs.  We model such a
  call site by a `PendingCoro` value recorded in the output: the
  coroutine is created, but the state it would have modified is left
  unchanged.
* Exceptions are modelled with `Except String` / an `Option String`
  error component; a `try/except` block in the source corresponds to a
  `match` consuming the `Except`.
* `logger.*` calls and repository writes are recorded as actions in an
  output trace so that theorems can talk about what was logged,
  persisted or published.
-/

/-! ## Event bus data model (`app/core/event.py`) -/

/-- A Python class object used as an event kind.  `kid` identifies the
class, `superIds` are the ids of its proper superclasses.  The base
class `Event` has id `eventBaseId`. -/
structure EventType where
  kid : Nat
  superIds : List Nat
deriving Repr, DecidableEq

/-- The class id of the base class `Event` in `app/core/event.py`. -/
def eventBaseId : Nat := 0

/-- Python `issubclass(event_type, Event)`: the class is `Event` itself
or lists `Event` among its superclasses. -/
def EventType.isEventSubclass (t : EventType) : Bool :=
  t.kid = eventBaseId || t.superIds.contains eventBaseId

/-- The spec side of claim C4, written from the spec sentence: the
handler's declared accepted event kind is the same as, or a supertype
of, the event kind being subscribed to. -/
def specSameOrSupertype (declared target : EventType) : Bool :=
  declared.kid = target.kid || target.superIds.contains declared.kid

/-- The callable passed to `EventManager.add_handler`: an identity,
whether it is a coroutine function, how many parameters its signature
has, and the event kind its single parameter is annotated with (if
any).  Only the first three are ever inspected by `add_handler`. -/
structure HandlerInfo where
  hid : Nat
  isCoroutineFunction : Bool
  paramCount : Nat
  declaredKind : Option EventType
deriving Repr, DecidableEq

/-- One entry of `self.handlers[event_type]`: the `(handler, priority)`
tuple stored by `add_handler`. -/
abbrev HandlerEntry := HandlerInfo × Int

/-- Insert an element into an already priority-sorted list, after every
element of smaller-or-equal priority.  Folding this over a list is a
stable sort by priority, hence computes the same list as the stable
`list.sort(key=lambda h: h[1])` of CPython. -/
def insertStable (x : HandlerEntry) : List HandlerEntry → List HandlerEntry
  | [] => [x]
  | y :: ys => if y.2 ≤ x.2 then y :: insertStable x ys else x :: y :: ys

/-- Stable sort by priority: the result of
`self.handlers[event_type].sort(key=lambda h: h[1])`. -/
def pySortByPriority (l : List HandlerEntry) : List HandlerEntry :=
  l.foldl (fun acc x => insertStable x acc) []

/-- Lines 81-85 of `app/core/event.py`:
`self.handlers[event_type].append((handler, priority))` followed by
`self.handlers[event_type].sort(key=lambda h: h[1])`. -/
def addHandlerEntry (l : List HandlerEntry) (h : HandlerInfo) (priority : Int) :
    List HandlerEntry :=
  pySortByPriority (l ++ [(h, priority)])

/-- `self.handlers`: the dict from event class id to its handler list. -/
abbrev HandlersMap := List (Nat × List HandlerEntry)

/-- Python dict assignment `m[k] = v` (update in place, or append new
key). -/
def mapSet (m : HandlersMap) (k : Nat) (v : List HandlerEntry) : HandlersMap :=
  match m with
  | [] => [(k, v)]
  | (k0, v0) :: rest => if k0 = k then (k, v) :: rest else (k0, v0) :: mapSet rest k v

/-- `EventManager.add_handler(event_type, handler, priority=0)`:
the three `TypeError` guards, then append the `(handler, priority)`
tuple to the per-kind list and stably sort it by priority.  The
handler's parameter annotation (`declaredKind`) is never inspected. -/
def add_handler (m : HandlersMap) (event_type : EventType) (h : HandlerInfo)
    (priority : Int) : Except String HandlersMap :=
  if ¬ event_type.isEventSubclass then
    .error "TypeError: event type must be a subclass of Event"
  else if ¬ h.isCoroutineFunction then
    .error "TypeError: handler must be a coroutine function"
  else if h.paramCount ≠ 1 then
    .error "TypeError: handler must accept exactly one parameter"
  else
    let cur := ((m.lookup event_type.kid).getD [])
    .ok (mapSet m event_type.kid (addHandlerEntry cur h priority))

/-- A Python event instance: its exact class id and an identity. -/
structure EventObj where
  kid : Nat
  eid : Nat
deriving Repr, DecidableEq

/-- An arbitrary Python object handed to `EventManager.add_event`:
either an `Event` instance or some other object (carrying its type
name, used in the error message). -/
inductive PyObject where
  | ev : EventObj → PyObject
  | nonEvent : String → PyObject
deriving Repr, DecidableEq

/-- `EventManager.add_event(event)` (lines 41-54 of
`app/core/event.py`): raise `TypeError` unless `isinstance(event,
Event)`, otherwise `await self.events.put(event)`.  Result: the raised
error (if any) and the queue afterwards. -/
def add_event (q : List EventObj) (obj : PyObject) : Option String × List EventObj :=
  match obj with
  | .nonEvent tname => (some ("TypeError: event object must be an Event instance, got " ++ tname), q)
  | .ev e => (none, q ++ [e])

/-- Record of one handler invocation performed by `handle_event`:
which handler ran, on which event, at which priority, and whether the
handler raised (the exception is caught and logged). -/
structure InvokeRec where
  hid : Nat
  eid : Nat
  priority : Int
  errored : Bool
deriving Repr, DecidableEq

/-- The `for handler, priority in self.handlers[event.__class__]` loop
of `EventManager.handle_event`: each handler is awaited inside
`try/except Exception`, so an exception is recorded (logged) and the
loop continues with the next handler.  `behav hid eid` is the body of
handler `hid` on event `eid`. -/
def runHandlers (behav : Nat → Nat → Except String Unit) (e : EventObj) :
    List HandlerEntry → List InvokeRec
  | [] => []
  | hp :: rest =>
    let r := behav hp.1.hid e.eid
    { hid := hp.1.hid, eid := e.eid, priority := hp.2,
      errored := !r.isOk } :: runHandlers behav e rest

/-- `EventManager.handle_event(event)` (lines 106-123): look up the
handler list registered for the event's exact class and run the loop;
an absent key means no handler runs. -/
def handle_event (behav : Nat → Nat → Except String Unit) (m : HandlersMap)
    (e : EventObj) : List InvokeRec :=
  runHandlers behav e ((m.lookup e.kid).getD [])

/-- `EventManager.run` (lines 125-133) on a finite queue of events: each
event is taken from the queue and `handle_event` is awaited on it
(`await asyncio.create_task(...)`), so events are processed one after
the other and the loop never stops early. -/
def runBus (behav : Nat → Nat → Except String Unit) (m : HandlersMap) :
    List EventObj → List InvokeRec
  | [] => []
  | e :: es => handle_event behav m e ++ runBus behav m es

/-! ## Metadata model (`app/models/metadata.py`) -/

/-- `SubscriptionStatus` enum. -/
inductive SubscriptionStatus where
  | UPDATING
  | COMPLETED
  | PACKED
deriving Repr, DecidableEq

/-- `FileType` enum. -/
inductive FileType where
  | M3U8
  | MP4
  | MKV
  | ASS
deriving Repr, DecidableEq

/-- `DownloadLink` dataclass. -/
structure DownloadLink where
  url : String
  type : FileType
  custom_headers : List (String × String)
deriving Repr, DecidableEq

/-- The fields of `MediaMetadata` the core reads.  `episode_count` is
`Optional[int]` in the source. -/
structure MediaMetadata where
  title : String
  episode_count : Option Nat
deriving Repr, DecidableEq

/-- The fields of `SubscriptionMetadata` the core reads.  `torrent_ids`
is a dict episode number → torrent id (keys unique). -/
structure SubscriptionMetadata where
  id : String
  media_metadata : MediaMetadata
  subscription_url : String
  platform : String
  cron_expression : String
  torrent_ids : List (Nat × String)
  folder_name : String
  status : SubscriptionStatus
deriving Repr, DecidableEq

/-! ## Download queue (`app/services/download.py`) -/

/-- `DownloadEvent`: subscription, episode, link, retry counter. -/
structure DownloadEvent where
  subscription : SubscriptionMetadata
  episode : Nat
  url : DownloadLink
  retry : Int
deriving Repr, DecidableEq

/-- `DownloadEvent.__init__(subscription, episode, url)` sets
`self.retry = 0`. -/
def mkDownloadEvent (s : SubscriptionMetadata) (episode : Nat) (url : DownloadLink) :
    DownloadEvent :=
  { subscription := s, episode := episode, url := url, retry := 0 }

/-- A coroutine object created in `app/services/download.py` by calling
a coroutine function without `await`: it is discarded unrun. -/
inductive DownloadCoro where
  | queuePut : DownloadEvent → DownloadCoro
  | submitCall : DownloadEvent → DownloadCoro
deriving Repr, DecidableEq

/-- `DownloadService.submit(event)` (lines 27-32 of
`app/services/download.py`), as executed when awaited: `event.retry`
is incremented; if it exceeds 3 the function returns (the event is
dropped); otherwise the source evaluates `self._queue.put(event)`
WITHOUT `await` — the `put` coroutine object is created and discarded,
so the queue `self._queue` is not modified.  Result: the queue
afterwards, the mutated event, and the coroutines created but never
awaited. -/
def DownloadService.submit (q : List DownloadEvent) (e : DownloadEvent) :
    List DownloadEvent × DownloadEvent × List DownloadCoro :=
  let e1 : DownloadEvent := { e with retry := e.retry + 1 }
  if e1.retry > 3 then
    (q, e1, [])
  else
    (q, e1, [DownloadCoro.queuePut e1])

/-- `handle_download_event(event)` (lines 48-51): evaluates
`download_service.submit(event)` WITHOUT `await`, creating and
discarding the `submit` coroutine — neither the retry counter nor the
queue changes. -/
def handle_download_event (q : List DownloadEvent) (e : DownloadEvent) :
    List DownloadEvent × DownloadEvent × List DownloadCoro :=
  (q, e, [DownloadCoro.submitCall e])

/-! ## Subscription service (`app/services/subscription.py`) -/

/-- An OTT platform adapter (`app/platforms/__init__.py`): the two
fallible capability methods, modelled as oracles. -/
structure Platform where
  name : String
  get_episodes_list : String → Except String (List (Nat × String))
  get_download_link : String → Except String DownloadLink

/-- Observable effects of one run of `handle_subscription_event`:
log lines, repository writes, scheduler calls, platform adapter
invocations and events published on the bus. -/
inductive ReconAction where
  | updateStatus : String → SubscriptionStatus → ReconAction
  | updateSubscriptionCall : String → ReconAction
  | logInfo : String → ReconAction
  | logWarn : String → ReconAction
  | logError : String → ReconAction
  | platformEpisodesCall : String → ReconAction
  | platformLinkCall : String → ReconAction
  | publishDownload : DownloadEvent → ReconAction

/-- Whether an action is an invocation of a platform adapter method. -/
def ReconAction.isAdapterCall : ReconAction → Bool
  | .platformEpisodesCall _ => true
  | .platformLinkCall _ => true
  | _ => false

/-- The keys of the `torrent_ids` dict as a set
(`set(event.subscription.torrent_ids.keys())`). -/
def torrentKeys (sub : SubscriptionMetadata) : Finset ℕ :=
  (sub.torrent_ids.map Prod.fst).toFinset

/-- The keys of an episode listing as a set
(`set(latest_episodes.keys())`). -/
def episodeKeys (latest : List (Nat × String)) : Finset ℕ :=
  (latest.map Prod.fst).toFinset

/-- The `for episode in download_episodes` loop at the end of
`handle_subscription_event`: for each missing episode fetch its
download link; on success publish `DownloadEvent(subscription, episode,
url)` on the bus (properly awaited there); on failure log and continue
with the remaining episodes. -/
def downloadLoop (p : Platform) (sub : SubscriptionMetadata)
    (latest : List (Nat × String)) : List Nat → List ReconAction
  | [] => []
  | ep :: rest =>
    let ref := (latest.lookup ep).getD ""
    ReconAction.platformLinkCall ref ::
      (match p.get_download_link ref with
       | .ok url => [ReconAction.publishDownload (mkDownloadEvent sub ep url)]
       | .error _ => [ReconAction.logError "failed to fetch download link"]) ++
      downloadLoop p sub latest rest

/-- `handle_subscription_event(event)` (lines 27-71 of
`app/services/subscription.py`).  The local folder scan (lines 31-36)
is abstracted by its result `localEpisodes`, the set of episode
numbers extracted from the season folder's filenames.  The source
branches:
1. chained comparison `len(local_episodes) ==
   event.subscription.media_metadata.episode_count ==
   len(event.subscription.torrent_ids)`: set status `COMPLETED`,
   log, call `update_subscription`, return;
2. `elif local_episodes != set(torrent_ids.keys())`: log a warning and
   fall through;
3. unknown platform: log an error and return;
4. `get_episodes_list` failure: log an error and return;
5. `download_episodes = set(latest_episodes.keys()) - local_episodes`;
   if empty log and return, else run the download loop over the
   missing episodes (iteration order of a Python set is
   implementation-defined; modelled ascending). -/
def handle_subscription_event (platforms : List (String × Platform))
    (localEpisodes : Finset ℕ) (sub : SubscriptionMetadata) : List ReconAction :=
  if some localEpisodes.card = sub.media_metadata.episode_count ∧
      sub.media_metadata.episode_count = some sub.torrent_ids.length then
    [ReconAction.updateStatus sub.id SubscriptionStatus.COMPLETED,
     ReconAction.logInfo "subscription completed",
     ReconAction.updateSubscriptionCall sub.id]
  else
    (if localEpisodes ≠ torrentKeys sub then
      [ReconAction.logWarn "subscription out of sync"]
     else []) ++
    match platforms.lookup sub.platform with
    | none => [ReconAction.logError "unsupported OTT platform"]
    | some p =>
      ReconAction.platformEpisodesCall sub.subscription_url ::
      match p.get_episodes_list sub.subscription_url with
      | .error _ => [ReconAction.logError "failed to fetch episodes list"]
      | .ok latest =>
        let missing : Finset ℕ := episodeKeys latest \ localEpisodes
        if missing = ∅ then
          [ReconAction.logInfo "no new episodes to download"]
        else
          ReconAction.logInfo "new episodes to download" ::
          downloadLoop p sub latest (missing.sort (· ≤ ·))

/-- The download events published in a trace, in order. -/
def publishedEvents : List ReconAction → List DownloadEvent
  | [] => []
  | ReconAction.publishDownload e :: rest => e :: publishedEvents rest
  | _ :: rest => publishedEvents rest

/-- The set of episodes for which a `DownloadEvent` was published in a
trace. -/
def publishedEpisodes (l : List ReconAction) : Finset ℕ :=
  ((publishedEvents l).map DownloadEvent.episode).toFinset

/-! ## Subscription scheduler (`app/services/subscription.py`, module
state `jobs: Dict[str, Cron]`) -/

/-- An `aiocron.Cron` job object, identified by the expression it was
built from and a tag distinguishing instances. -/
structure Cron where
  expr : String
  tag : Nat
deriving Repr, DecidableEq

/-- The module-level `jobs` dict, subscription id → job. -/
abbrev JobsMap := List (String × Cron)

/-- Python dict assignment `jobs[sid] = c`. -/
def jobsSet (m : JobsMap) (sid : String) (c : Cron) : JobsMap :=
  match m with
  | [] => [(sid, c)]
  | (k0, v0) :: rest => if k0 = sid then (sid, c) :: rest else (k0, v0) :: jobsSet rest sid c

/-- Python `del jobs[sid]` (keys are unique). -/
def jobsDel (m : JobsMap) (sid : String) : JobsMap :=
  m.filter (fun kv => kv.1 ≠ sid)

/-- Observable effects of the scheduler functions: log lines and
`job.stop()` calls. -/
inductive SchedAction where
  | stopJob : String → SchedAction
  | logInfo : String → SchedAction
  | logWarn : String → SchedAction
  | logError : String → SchedAction
deriving Repr, DecidableEq

/-- The `for subscription in subscriptions` loop of `start()` (lines
83-99 of `app/services/subscription.py`).  For each subscription: if a
job with that id exists it is stopped (the dict entry remains until
overwritten); then `jobs[id] = crontab(...)` is evaluated with NO
`try/except`, so a `cron_builder` failure (malformed expression)
propagates out of `start` immediately: the result carries the jobs
dict as mutated so far, the actions so far, and the uncaught
exception. -/
def startLoop (cron_builder : String → Except String Cron) (jobs : JobsMap) :
    List SubscriptionMetadata → JobsMap × List SchedAction × Option String
  | [] => (jobs, [], none)
  | sub :: rest =>
    let stops : List SchedAction :=
      if (jobs.lookup sub.id).isSome then
        [SchedAction.logInfo "stopping existing subscription job", SchedAction.stopJob sub.id]
      else []
    let acts := stops ++ [SchedAction.logInfo "starting subscription job"]
    match cron_builder sub.cron_expression with
    | .error e => (jobs, acts, some e)
    | .ok c =>
      let r := startLoop cron_builder (jobsSet jobs sub.id c) rest
      (r.1, acts ++ r.2.1, r.2.2)

/-- `update_subscription(subscription_id)` (lines 109-148).
`get_by_id` is the repository lookup oracle; `cron_builder` models
`crontab(...)` on the subscription's expression.  Branches:
* subscription not found: warn, return;
* status no longer `UPDATING`: stop and `del` any existing job, return;
* status `UPDATING`: stop any existing job (its dict entry remains),
  then build the new job inside `try/except`: on success store it, on
  failure log the error and return normally. -/
def update_subscription (cron_builder : String → Except String Cron)
    (get_by_id : String → Option SubscriptionMetadata)
    (jobs : JobsMap) (sid : String) : JobsMap × List SchedAction :=
  match get_by_id sid with
  | none => (jobs, [SchedAction.logWarn "subscription not found"])
  | some sub =>
    if sub.status ≠ SubscriptionStatus.UPDATING then
      if (jobs.lookup sid).isSome then
        (jobsDel jobs sid,
         [SchedAction.logInfo "status changed, stopping job", SchedAction.stopJob sid])
      else (jobs, [])
    else
      let stops : List SchedAction :=
        if (jobs.lookup sid).isSome then
          [SchedAction.logInfo "updating subscription job", SchedAction.stopJob sid]
        else []
      match cron_builder sub.cron_expression with
      | .ok c => (jobsSet jobs sid c, stops ++ [SchedAction.logInfo "subscription job updated"])
      | .error _ => (jobs, stops ++ [SchedAction.logError "failed to create subscription job"])

/-! ## Filesystem watcher (`app/services/watch.py`) -/

/-- `FileChangeEvent(change_type, path)`. -/
structure FileChangeEvent where
  change_type : String
  path : String
deriving Repr, DecidableEq

/-- The attribute dict of a `WatchService` instance.  `change_types` is
`none` when the attribute was never assigned (reading it then raises
`AttributeError`). -/
structure WatchServiceState where
  path : String
  change_types : Option (List String)
deriving Repr, DecidableEq

/-- `WatchService.__init__(path, change_types)` (lines 21-24 of
`app/services/watch.py`): assigns `self.stop_event` and `self.path`
but NEVER assigns `self.change_types`; the `change_types` parameter is
discarded. -/
def watchServiceInit (path : String) (change_types : List String) : WatchServiceState :=
  let _ := change_types
  { path := path, change_types := none }

/-- A coroutine object created without `await` in `WatchService.start`:
`event_manager.add_event(FileChangeEvent(...))` is called bare, so the
coroutine is discarded and the bus queue is never touched. -/
inductive WatchCoro where
  | addEventCall : FileChangeEvent → WatchCoro
deriving Repr, DecidableEq

/-- The body of the inner `for change_type, path in changes` loop of
`WatchService.start` (lines 26-31), on one change notification
`(changeKind, changedPath)`: reading `self.change_types` raises
`AttributeError` when the attribute is absent; otherwise, when the
change kind is interesting, `event_manager.add_event(...)` is
evaluated WITHOUT `await`, creating a discarded coroutine — the bus
queue `q` is unchanged in every case. -/
def watchProcessChange (ws : WatchServiceState) (q : List FileChangeEvent)
    (change : String × String) :
    Except String (List FileChangeEvent × List WatchCoro) :=
  match ws.change_types with
  | none => .error "AttributeError: WatchService object has no attribute change_types"
  | some cts =>
    if cts.contains change.1 then
      .ok (q, [WatchCoro.addEventCall { change_type := change.1, path := change.2 }])
    else
      .ok (q, [])

/-! ## Derived definitions and concrete fixtures -/

/-- The per-kind handler list obtained by registering each entry of
`regs` in turn through the append-and-stable-sort step of
`add_handler`. -/
def buildHandlerList (regs : List HandlerEntry) : List HandlerEntry :=
  regs.foldl (fun l hp => addHandlerEntry l hp.1 hp.2) []

/-- A handler list is sorted by (non-strict) priority. -/
def prioSorted (l : List HandlerEntry) : Prop :=
  l.Pairwise (fun a b => a.2 ≤ b.2)

/-- A handler list is sorted by priority with ties broken by handler
id (the id encodes registration order: handlers registered earlier
carry smaller ids). -/
def lexSorted (l : List HandlerEntry) : Prop :=
  l.Pairwise (fun a b => a.2 < b.2 ∨ (a.2 = b.2 ∧ a.1.hid < b.1.hid))

def sampleLink : DownloadLink :=
  { url := "https://cdn.example/e.m3u8", type := FileType.M3U8, custom_headers := [] }

def sampleMedia (n : Nat) : MediaMetadata :=
  { title := "Sample Show", episode_count := some n }

def sampleSub : SubscriptionMetadata :=
  { id := "sub-1", media_metadata := sampleMedia 5,
    subscription_url := "https://ott.example/show/1",
    platform := "baha", cron_expression := "0 0 * * *",
    torrent_ids := [(1, "t1"), (2, "t2"), (3, "t3"), (4, "t4"), (5, "t5")],
    folder_name := "Sample.Show.S01", status := SubscriptionStatus.UPDATING }

def sampleSubMissing : SubscriptionMetadata :=
  { sampleSub with media_metadata := sampleMedia 3, torrent_ids := [(1, "t1"), (2, "t2")] }

def completedSub : SubscriptionMetadata :=
  { sampleSub with status := SubscriptionStatus.COMPLETED }

def samplePlatform : Platform :=
  { name := "baha",
    get_episodes_list := fun _ => .ok [(1, "ref1"), (2, "ref2"), (3, "ref3")],
    get_download_link := fun r => .ok { url := r, type := FileType.M3U8, custom_headers := [] } }

/-- A platform whose episode listing succeeds but whose download-link
fetch fails for every reference (a network failure while resolving
links). -/
def failingLinkPlatform : Platform :=
  { name := "baha",
    get_episodes_list := fun _ => .ok [(1, "ref1"), (2, "ref2"), (3, "ref3")],
    get_download_link := fun _ => .error "HTTPError: 503" }

def sampleDownloadEvent : DownloadEvent := mkDownloadEvent sampleSub 3 sampleLink

def badCronSub : SubscriptionMetadata :=
  { sampleSub with id := "sub-bad", cron_expression := "bad cron" }

def goodCronSub : SubscriptionMetadata :=
  { sampleSub with id := "sub-good" }

/-- A `crontab` oracle that rejects the expression `"bad cron"` (as the
real parser rejects a malformed expression) and accepts everything
else. -/
def cronBuilderSample : String → Except String Cron :=
  fun e =>
    if e = "bad cron" then .error "ValueError: invalid cron expression"
    else .ok { expr := e, tag := 0 }

def kindA : EventType := { kid := 1, superIds := [0] }

def kindB : EventType := { kid := 2, superIds := [0] }

/-- An async single-parameter handler whose declared accepted event
kind is `kindB`, unrelated to `kindA`. -/
def mismatchedHandler : HandlerInfo :=
  { hid := 7, isCoroutineFunction := true, paramCount := 1, declaredKind := some kindB }

def mkHandlerInfo (n : Nat) : HandlerInfo :=
  { hid := n, isCoroutineFunction := true, paramCount := 1, declaredKind := some kindA }

def sampleRegs : List HandlerEntry :=
  [(mkHandlerInfo 0, 5), (mkHandlerInfo 1, 1), (mkHandlerInfo 2, 5), (mkHandlerInfo 3, 1)]

/-- Handler bodies where handler 1 raises and every other handler
returns normally. -/
def failingBehav : Nat → Nat → Except String Unit :=
  fun hid _ => if hid = 1 then .error "boom" else .ok ()

def okBehav : Nat → Nat → Except String Unit := fun _ _ => .ok ()

/-! ## Theorems -/

/-- C10: `add_event` raises `TypeError` on any object that is not an
`Event` instance and leaves the queue unchanged; on an `Event`
instance it raises nothing and enqueues exactly that event. -/
theorem add_event_type_guard (q : List EventObj) (tname : String) (e : EventObj) :
    add_event q (PyObject.nonEvent tname) =
      (some ("TypeError: event object must be an Event instance, got " ++ tname), q) ∧
    add_event q (PyObject.ev e) = (none, q ++ [e]) :=
  ⟨rfl, rfl⟩

/-- C1 (code bug): a fresh `DownloadEvent` (retry counter 0) submitted
to the download queue has its counter incremented to 1 — well below
the ceiling — yet the queue stays empty, because `submit` evaluates
`self._queue.put(event)` without `await`, merely creating a discarded
coroutine; and `handle_download_event` itself calls
`download_service.submit(event)` without `await`, so through the
registered handler not even the retry counter changes. -/
theorem download_submit_unawaited_eval :
    DownloadService.submit [] sampleDownloadEvent =
      ([], { sampleDownloadEvent with retry := 1 },
        [DownloadCoro.queuePut { sampleDownloadEvent with retry := 1 }]) ∧
    handle_download_event [] sampleDownloadEvent =
      ([], sampleDownloadEvent, [DownloadCoro.submitCall sampleDownloadEvent]) :=
  ⟨rfl, rfl⟩

/-- C9 (code bug): `WatchService.__init__` never assigns
`self.change_types`, so processing the first change notification
raises `AttributeError`; and even with the attribute present, an
interesting change creates the `event_manager.add_event` coroutine
without `await`, so nothing is ever enqueued on the bus. -/
theorem watch_change_types_eval :
    watchServiceInit "/media" ["added"] = { path := "/media", change_types := none } ∧
    watchProcessChange (watchServiceInit "/media" ["added"]) [] ("added", "ep.mp4") =
      .error "AttributeError: WatchService object has no attribute change_types" ∧
    watchProcessChange { path := "/media", change_types := some ["added"] } [] ("added", "ep.mp4") =
      .ok ([], [WatchCoro.addEventCall { change_type := "added", path := "ep.mp4" }]) :=
  ⟨rfl, rfl, rfl⟩

/-- C2: when the local episode count, the expected episode count from
metadata and the recorded torrent-id count all agree, reconciliation
sets the status to `COMPLETED`, calls `update_subscription`, and
returns without invoking any platform adapter method. -/
theorem recon_completed_skips_adapter (platforms : List (String × Platform))
    (localEpisodes : Finset ℕ) (sub : SubscriptionMetadata)
    (h1 : some localEpisodes.card = sub.media_metadata.episode_count)
    (h2 : sub.media_metadata.episode_count = some sub.torrent_ids.length) :
    handle_subscription_event platforms localEpisodes sub =
      [ReconAction.updateStatus sub.id SubscriptionStatus.COMPLETED,
       ReconAction.logInfo "subscription completed",
       ReconAction.updateSubscriptionCall sub.id] ∧
    ∀ a ∈ handle_subscription_event platforms localEpisodes sub,
      a.isAdapterCall = false := by
  have heq : handle_subscription_event platforms localEpisodes sub =
      [ReconAction.updateStatus sub.id SubscriptionStatus.COMPLETED,
       ReconAction.logInfo "subscription completed",
       ReconAction.updateSubscriptionCall sub.id] := by
    unfold handle_subscription_event
    rw [if_pos ⟨h1, h2⟩]
  refine ⟨heq, ?_⟩
  rw [heq]
  intro a ha
  fin_cases ha <;> rfl

/-- C2 witness: a subscription with 5 local episodes, expected count 5
and 5 recorded torrent ids. -/
theorem recon_completed_skips_adapter_witness :
    handle_subscription_event [("baha", samplePlatform)] ({1, 2, 3, 4, 5} : Finset ℕ) sampleSub =
      [ReconAction.updateStatus sampleSub.id SubscriptionStatus.COMPLETED,
       ReconAction.logInfo "subscription completed",
       ReconAction.updateSubscriptionCall sampleSub.id] ∧
    ∀ a ∈ handle_subscription_event [("baha", samplePlatform)] ({1, 2, 3, 4, 5} : Finset ℕ) sampleSub,
      a.isAdapterCall = false :=
  recon_completed_skips_adapter [("baha", samplePlatform)] {1, 2, 3, 4, 5} sampleSub
    (by decide) (by decide)

/-- `del jobs[sid]` removes the binding for `sid`. -/
theorem jobsDel_lookup_none (m : JobsMap) (sid : String) :
    (jobsDel m sid).lookup sid = none := by
  induction m with
  | nil => rfl
  | cons kv rest ih =>
    by_cases h : kv.1 = sid
    · simpa [jobsDel, List.filter_cons, h] using ih
    · have hne : (sid == kv.1) = false := by
        simp [beq_eq_false_iff_ne]
        exact fun hc => h hc.symm
      simp only [jobsDel, List.filter_cons] at ih ⊢
      simp only [h, decide_not, decide_eq_true_eq] at *
      simp [List.lookup, hne, ih]

/-- C8: when the subscription's status is no longer `UPDATING`,
`update_subscription` removes any existing job for that id (stopping
it first) and installs no new one, so no job remains for that id. -/
theorem update_subscription_retires_job
    (cron_builder : String → Except String Cron)
    (get_by_id : String → Option SubscriptionMetadata)
    (jobs : JobsMap) (sid : String) (sub : SubscriptionMetadata)
    (hget : get_by_id sid = some sub)
    (hstat : sub.status ≠ SubscriptionStatus.UPDATING) :
    (update_subscription cron_builder get_by_id jobs sid).1.lookup sid = none ∧
    ((jobs.lookup sid).isSome = true →
      SchedAction.stopJob sid ∈ (update_subscription cron_builder get_by_id jobs sid).2) := by
  unfold update_subscription
  rw [hget]
  simp only [hstat, ne_eq, not_false_iff, if_true]
  by_cases hj : (jobs.lookup sid).isSome
  · rw [if_pos hj]
    exact ⟨jobsDel_lookup_none jobs sid, fun _ => by simp⟩
  · rw [if_neg hj]
    refine ⟨?_, fun hc => absurd hc hj⟩
    exact Option.not_isSome_iff_eq_none.mp hj

/-- C8 witness: a `COMPLETED` subscription whose job is installed. -/
theorem update_subscription_retires_job_witness :
    (update_subscription cronBuilderSample (fun _ => some completedSub)
      [("sub-1", { expr := "0 0 * * *", tag := 0 })] "sub-1").1.lookup "sub-1" = none ∧
    ((([("sub-1", { expr := "0 0 * * *", tag := 0 })] : JobsMap).lookup "sub-1").isSome = true →
      SchedAction.stopJob "sub-1" ∈
        (update_subscription cronBuilderSample (fun _ => some completedSub)
          [("sub-1", { expr := "0 0 * * *", tag := 0 })] "sub-1").2) :=
  update_subscription_retires_job cronBuilderSample (fun _ => some completedSub)
    [("sub-1", { expr := "0 0 * * *", tag := 0 })] "sub-1" completedSub rfl (by decide)

/-- C4 counterexample: `kindB` is neither the same as nor a supertype
of `kindA`, yet registering a handler declared for `kindB` under
`kindA` succeeds — `add_handler` never compares the handler's declared
event kind with the subscribed kind. -/
theorem add_handler_no_kind_check_cex :
    specSameOrSupertype kindB kindA = false ∧
    add_handler [] kindA mismatchedHandler 0 = .ok [(1, [(mismatchedHandler, 0)])] :=
  ⟨rfl, rfl⟩

/-- C4 (amended): registration fails with `TypeError` exactly when the
event kind is not a subclass of `Event`, the handler is not a
coroutine function, or the handler does not accept exactly one
parameter; the handler's declared accepted event kind is never
inspected, so the outcome is the same for any declared kind. -/
theorem add_handler_guards (m : HandlersMap) (t : EventType) (h : HandlerInfo) (p : Int) :
    ((add_handler m t h p).isOk = true ↔
      (t.isEventSubclass = true ∧ h.isCoroutineFunction = true ∧ h.paramCount = 1)) ∧
    ∀ dk : Option EventType,
      (add_handler m t { h with declaredKind := dk } p).isOk = (add_handler m t h p).isOk := by
  constructor
  · unfold add_handler
    split_ifs with g1 g2 g3 <;> simp_all [Except.isOk, Except.toBool]
  · intro dk
    unfold add_handler
    split_ifs <;> simp_all [Except.isOk, Except.toBool]

/-- C4 witness: the guard characterisation evaluated on the
counterexample registration. -/
theorem add_handler_guards_witness :
    ((add_handler [] kindA mismatchedHandler 0).isOk = true ↔
      (kindA.isEventSubclass = true ∧ mismatchedHandler.isCoroutineFunction = true ∧
        mismatchedHandler.paramCount = 1)) ∧
    ∀ dk : Option EventType,
      (add_handler [] kindA { mismatchedHandler with declaredKind := dk } 0).isOk =
        (add_handler [] kindA mismatchedHandler 0).isOk :=
  add_handler_guards [] kindA mismatchedHandler 0

/-- C3 counterexample: `start()` wraps the `crontab` construction in no
`try/except`, so with subscriptions `[badCronSub, goodCronSub]` the
malformed expression of the first propagates out of `start`: nothing
is logged as an error, and no job is installed for `goodCronSub`
either. -/
theorem start_malformed_cron_cex :
    startLoop cronBuilderSample [] [badCronSub, goodCronSub] =
      ([], [SchedAction.logInfo "starting subscription job"],
        some "ValueError: invalid cron expression") ∧
    (startLoop cronBuilderSample [] [badCronSub, goodCronSub]).1.lookup goodCronSub.id = none ∧
    ∀ s : String,
      SchedAction.logError s ∉ (startLoop cronBuilderSample [] [badCronSub, goodCronSub]).2.1 := by
  refine ⟨rfl, rfl, ?_⟩
  intro s hs
  simp [startLoop, cronBuilderSample, badCronSub, sampleSub] at hs

/-- C3 (amended): `update_subscription` builds the replacement job
inside `try/except`, so a malformed cron expression is logged and
leaves no job installed for a subscription that had none, and the call
returns normally; `start()` does not catch job-construction failures:
the first malformed expression raises out of `start`, leaving the jobs
dict as it was, with no job for the failing subscription or any
subscription after it. -/
theorem cron_failure_handling
    (cron_builder : String → Except String Cron)
    (get_by_id : String → Option SubscriptionMetadata)
    (jobs : JobsMap) (sid : String) (sub : SubscriptionMetadata) (msg : String)
    (hget : get_by_id sid = some sub)
    (hstat : sub.status = SubscriptionStatus.UPDATING)
    (herr : cron_builder sub.cron_expression = .error msg)
    (hfresh : jobs.lookup sid = none) :
    update_subscription cron_builder get_by_id jobs sid =
      (jobs, [SchedAction.logError "failed to create subscription job"]) ∧
    ∀ (jobs2 : JobsMap) (bad : SubscriptionMetadata) (post : List SubscriptionMetadata)
      (m2 : String),
      cron_builder bad.cron_expression = .error m2 →
      (startLoop cron_builder jobs2 (bad :: post)).1 = jobs2 ∧
      (startLoop cron_builder jobs2 (bad :: post)).2.2 = some m2 := by
  constructor
  · simp only [update_subscription, hget]
    rw [if_neg (not_not_intro hstat)]
    rw [hfresh, herr]
    rfl
  · intro jobs2 bad post m2 he
    unfold startLoop
    rw [he]
    exact ⟨rfl, rfl⟩

/-- C3 witness: the amended behaviour evaluated on the malformed
fixture subscription. -/
theorem cron_failure_handling_witness :
    update_subscription cronBuilderSample (fun _ => some badCronSub) [] "sub-bad" =
      ([], [SchedAction.logError "failed to create subscription job"]) ∧
    (startLoop cronBuilderSample [] [badCronSub, goodCronSub]).1 = [] ∧
    (startLoop cronBuilderSample [] [badCronSub, goodCronSub]).2.2 =
      some "ValueError: invalid cron expression" := by
  have h := cron_failure_handling cronBuilderSample (fun _ => some badCronSub) [] "sub-bad"
    badCronSub "ValueError: invalid cron expression" rfl rfl rfl rfl
  exact ⟨h.1, h.2 [] badCronSub [goodCronSub] "ValueError: invalid cron expression" rfl⟩

/-- The handler loop is a map over the handler list: the `try/except`
around each call means no handler outcome can stop the loop. -/
theorem runHandlers_eq_map (behav : Nat → Nat → Except String Unit) (e : EventObj)
    (l : List HandlerEntry) :
    runHandlers behav e l =
      l.map (fun hp =>
        { hid := hp.1.hid, eid := e.eid, priority := hp.2,
          errored := !(behav hp.1.hid e.eid).isOk }) := by
  induction l with
  | nil => rfl
  | cons hp rest ih => simp [runHandlers, ih]

/-- C7: a handler that raises is caught and logged: every handler
after it in the list is still invoked with the same event, and the
dispatch loop still processes the subsequent queued events. -/
theorem handler_isolation
    (behav : Nat → Nat → Except String Unit) (m : HandlersMap) (e : EventObj)
    (es : List EventObj) (pre post : List HandlerEntry) (f : HandlerInfo) (fp : Int)
    (hlist : (m.lookup e.kid).getD [] = pre ++ (f, fp) :: post)
    (herr : (behav f.hid e.eid).isOk = false) :
    runBus behav m (e :: es) =
      runHandlers behav e pre ++
        ({ hid := f.hid, eid := e.eid, priority := fp, errored := true } : InvokeRec) ::
          (runHandlers behav e post ++ runBus behav m es) ∧
    (runHandlers behav e post).map InvokeRec.hid = post.map (fun hp => hp.1.hid) ∧
    ∀ r ∈ runHandlers behav e post, r.eid = e.eid := by
  refine ⟨?_, ?_, ?_⟩
  · show handle_event behav m e ++ runBus behav m es = _
    rw [handle_event, hlist]
    rw [runHandlers_eq_map, runHandlers_eq_map, runHandlers_eq_map]
    simp [herr]
  · rw [runHandlers_eq_map]
    simp
  · rw [runHandlers_eq_map]
    intro r hr
    obtain ⟨hp, _h, rfl⟩ := List.mem_map.mp hr
    rfl

/-- C7 witness: three registered handlers; the middle one raises, the
third still runs, and the next queued event is still dispatched. -/
theorem handler_isolation_witness :
    runBus failingBehav [(0, [(mkHandlerInfo 0, 0), (mkHandlerInfo 1, 0), (mkHandlerInfo 2, 0)])]
        [⟨0, 42⟩, ⟨0, 43⟩] =
      runHandlers failingBehav ⟨0, 42⟩ [(mkHandlerInfo 0, 0)] ++
        ({ hid := 1, eid := 42, priority := 0, errored := true } : InvokeRec) ::
          (runHandlers failingBehav ⟨0, 42⟩ [(mkHandlerInfo 2, 0)] ++
            runBus failingBehav
              [(0, [(mkHandlerInfo 0, 0), (mkHandlerInfo 1, 0), (mkHandlerInfo 2, 0)])]
              [⟨0, 43⟩]) ∧
    (runHandlers failingBehav ⟨0, 42⟩ [(mkHandlerInfo 2, 0)]).map InvokeRec.hid =
      [(mkHandlerInfo 2, 0)].map (fun hp => hp.1.hid) ∧
    ∀ r ∈ runHandlers failingBehav ⟨0, 42⟩ [(mkHandlerInfo 2, 0)], r.eid = 42 :=
  handler_isolation failingBehav
    [(0, [(mkHandlerInfo 0, 0), (mkHandlerInfo 1, 0), (mkHandlerInfo 2, 0)])]
    ⟨0, 42⟩ [⟨0, 43⟩] [(mkHandlerInfo 0, 0)] [(mkHandlerInfo 2, 0)] (mkHandlerInfo 1) 0
    rfl rfl

/-- `publishedEvents` distributes over trace concatenation. -/
theorem publishedEvents_append (l1 l2 : List ReconAction) :
    publishedEvents (l1 ++ l2) = publishedEvents l1 ++ publishedEvents l2 := by
  induction l1 with
  | nil => rfl
  | cons a rest ih => cases a <;> simp [publishedEvents, ih]

/-- The download loop publishes exactly one event per missing episode
whose link fetch succeeds. -/
theorem publishedEvents_downloadLoop (p : Platform) (sub : SubscriptionMetadata)
    (latest : List (Nat × String)) (eps : List Nat) :
    publishedEvents (downloadLoop p sub latest eps) =
      eps.filterMap (fun ep =>
        match p.get_download_link ((latest.lookup ep).getD "") with
        | .ok u => some (mkDownloadEvent sub ep u)
        | .error _ => none) := by
  induction eps with
  | nil => rfl
  | cons ep rest ih =>
    unfold downloadLoop
    cases hl : p.get_download_link ((latest.lookup ep).getD "") <;>
      simp [publishedEvents, publishedEvents_append, List.filterMap_cons, hl, ih]

/-- Every event published by the download loop carries retry counter
0 (`DownloadEvent.__init__` sets it). -/
theorem downloadLoop_retry_zero (p : Platform) (sub : SubscriptionMetadata)
    (latest : List (Nat × String)) (eps : List Nat) :
    ∀ d ∈ publishedEvents (downloadLoop p sub latest eps), d.retry = 0 := by
  intro d hd
  rw [publishedEvents_downloadLoop] at hd
  rcases List.mem_filterMap.mp hd with ⟨ep, _hin, hmatch⟩
  revert hmatch
  cases p.get_download_link ((latest.lookup ep).getD "") with
  | ok u =>
    intro hmatch
    cases hmatch
    rfl
  | error s =>
    intro hmatch
    cases hmatch

/-- The download loop only ever publishes episodes it was given. -/
theorem downloadLoop_episodes_subset (p : Platform) (sub : SubscriptionMetadata)
    (latest : List (Nat × String)) (eps : List Nat) :
    ∀ d ∈ publishedEvents (downloadLoop p sub latest eps), d.episode ∈ eps := by
  intro d hd
  rw [publishedEvents_downloadLoop] at hd
  rcases List.mem_filterMap.mp hd with ⟨ep, hin, hmatch⟩
  revert hmatch
  cases p.get_download_link ((latest.lookup ep).getD "") with
  | ok u =>
    intro hmatch
    cases hmatch
    exact hin
  | error s =>
    intro hmatch
    cases hmatch

/-- With every link fetch succeeding, the loop publishes exactly the
episodes it was given, in order. -/
theorem downloadLoop_episodes_of_links_ok (p : Platform) (sub : SubscriptionMetadata)
    (latest : List (Nat × String)) (eps : List Nat)
    (h : ∀ ep ∈ eps, ∃ u, p.get_download_link ((latest.lookup ep).getD "") = .ok u) :
    (publishedEvents (downloadLoop p sub latest eps)).map DownloadEvent.episode = eps := by
  induction eps with
  | nil => rfl
  | cons ep rest ih =>
    obtain ⟨u, hu⟩ := h ep (by simp)
    rw [publishedEvents_downloadLoop, List.filterMap_cons, hu]
    have htail := ih (fun e he => h e (by simp [he]))
    rw [publishedEvents_downloadLoop] at htail
    simp only [List.map_cons]
    rw [htail]
    rfl

/-- C5 (amended): once reconciliation reaches the remote lookup,
every published download request is for an episode in
`keys(latestEpisodes) - localEpisodes` (an episode present locally is
never requested) and carries retry counter 0; an empty difference
publishes nothing; and the published set equals the difference exactly
when every missing episode's link fetch succeeds — an episode whose
`get_download_link` call fails is logged and omitted. -/
theorem recon_missing_episodes
    (platforms : List (String × Platform)) (localEpisodes : Finset ℕ)
    (sub : SubscriptionMetadata) (p : Platform) (latest : List (Nat × String))
    (hnc : ¬(some localEpisodes.card = sub.media_metadata.episode_count ∧
        sub.media_metadata.episode_count = some sub.torrent_ids.length))
    (hplat : platforms.lookup sub.platform = some p)
    (heps : p.get_episodes_list sub.subscription_url = .ok latest) :
    publishedEpisodes (handle_subscription_event platforms localEpisodes sub) ⊆
      episodeKeys latest \ localEpisodes ∧
    (∀ d ∈ publishedEvents (handle_subscription_event platforms localEpisodes sub),
      d.retry = 0) ∧
    (episodeKeys latest \ localEpisodes = ∅ →
      publishedEvents (handle_subscription_event platforms localEpisodes sub) = []) ∧
    ((∀ ep ∈ episodeKeys latest \ localEpisodes,
        ∃ u, p.get_download_link ((latest.lookup ep).getD "") = .ok u) →
      publishedEpisodes (handle_subscription_event platforms localEpisodes sub) =
        episodeKeys latest \ localEpisodes) := by
  have key : handle_subscription_event platforms localEpisodes sub =
      (if localEpisodes ≠ torrentKeys sub then
        [ReconAction.logWarn "subscription out of sync"] else []) ++
      (ReconAction.platformEpisodesCall sub.subscription_url ::
        (if episodeKeys latest \ localEpisodes = ∅ then
          [ReconAction.logInfo "no new episodes to download"]
         else
          ReconAction.logInfo "new episodes to download" ::
            downloadLoop p sub latest ((episodeKeys latest \ localEpisodes).sort (· ≤ ·)))) := by
    simp only [handle_subscription_event, if_neg hnc, hplat, heps]
  have hpub : publishedEvents (handle_subscription_event platforms localEpisodes sub) =
      publishedEvents
        (if episodeKeys latest \ localEpisodes = ∅ then
          [ReconAction.logInfo "no new episodes to download"]
         else
          ReconAction.logInfo "new episodes to download" ::
            downloadLoop p sub latest ((episodeKeys latest \ localEpisodes).sort (· ≤ ·))) := by
    rw [key, publishedEvents_append]
    have h1 : publishedEvents
        (if localEpisodes ≠ torrentKeys sub then
          [ReconAction.logWarn "subscription out of sync"] else []) = [] := by
      split_ifs <;> rfl
    rw [h1]
    simp [publishedEvents]
  by_cases hm : episodeKeys latest \ localEpisodes = ∅
  · have hev : publishedEvents (handle_subscription_event platforms localEpisodes sub) = [] := by
      rw [hpub, if_pos hm]
      rfl
    have hpe : publishedEpisodes (handle_subscription_event platforms localEpisodes sub) = ∅ := by
      rw [publishedEpisodes, hev]
      rfl
    refine ⟨?_, ?_, fun _ => hev, fun _ => by rw [hpe, hm]⟩
    · rw [hpe]
      exact Finset.empty_subset _
    · rw [hev]
      simp
  · have hev : publishedEvents (handle_subscription_event platforms localEpisodes sub) =
        publishedEvents
          (downloadLoop p sub latest ((episodeKeys latest \ localEpisodes).sort (· ≤ ·))) := by
      rw [hpub, if_neg hm]
      rfl
    refine ⟨?_, ?_, fun hc => absurd hc hm, ?_⟩
    · intro x hx
      rw [publishedEpisodes, hev] at hx
      simp only [List.mem_toFinset, List.mem_map] at hx
      obtain ⟨d, hd, rfl⟩ := hx
      exact (Finset.mem_sort _).mp (downloadLoop_episodes_subset p sub latest _ d hd)
    · rw [hev]
      exact downloadLoop_retry_zero p sub latest _
    · intro hlinks
      have hmapeq := downloadLoop_episodes_of_links_ok p sub latest
        ((episodeKeys latest \ localEpisodes).sort (· ≤ ·))
        (fun ep hep => hlinks ep ((Finset.mem_sort _).mp hep))
      rw [publishedEpisodes, hev, hmapeq]
      exact Finset.sort_toFinset _ _

/-- C5 witness: two local episodes, three remote episodes: the
published requests stay within the missing set {3}, carry retry
counter 0, and — since every link fetch of `samplePlatform` succeeds —
cover exactly {3}. -/
theorem recon_missing_episodes_witness :
    publishedEpisodes
        (handle_subscription_event [("baha", samplePlatform)] ({1, 2} : Finset ℕ) sampleSubMissing) ⊆
      episodeKeys [(1, "ref1"), (2, "ref2"), (3, "ref3")] \ ({1, 2} : Finset ℕ) ∧
    (∀ d ∈ publishedEvents
        (handle_subscription_event [("baha", samplePlatform)] ({1, 2} : Finset ℕ) sampleSubMissing),
      d.retry = 0) ∧
    (episodeKeys [(1, "ref1"), (2, "ref2"), (3, "ref3")] \ ({1, 2} : Finset ℕ) = ∅ →
      publishedEvents
        (handle_subscription_event [("baha", samplePlatform)] ({1, 2} : Finset ℕ) sampleSubMissing) = []) ∧
    ((∀ ep ∈ episodeKeys [(1, "ref1"), (2, "ref2"), (3, "ref3")] \ ({1, 2} : Finset ℕ),
        ∃ u, samplePlatform.get_download_link
          (([(1, "ref1"), (2, "ref2"), (3, "ref3")].lookup ep).getD "") = .ok u) →
      publishedEpisodes
          (handle_subscription_event [("baha", samplePlatform)] ({1, 2} : Finset ℕ) sampleSubMissing) =
        episodeKeys [(1, "ref1"), (2, "ref2"), (3, "ref3")] \ ({1, 2} : Finset ℕ)) :=
  recon_missing_episodes [("baha", samplePlatform)] {1, 2} sampleSubMissing samplePlatform
    [(1, "ref1"), (2, "ref2"), (3, "ref3")] (by decide) rfl rfl

/-- C5 counterexample: with local episodes {1, 2} and remote episodes
{1, 2, 3} the missing set is {3}, but the link fetch for episode 3
fails: the failure is logged, the episode is skipped, and nothing is
published — so the published set is not `keys(latestEpisodes) -
localEpisodes`. -/
theorem recon_link_failure_cex :
    episodeKeys [(1, "ref1"), (2, "ref2"), (3, "ref3")] \ ({1, 2} : Finset ℕ) = {3} ∧
    publishedEvents
      (handle_subscription_event [("baha", failingLinkPlatform)] ({1, 2} : Finset ℕ)
        sampleSubMissing) = [] ∧
    ReconAction.logError "failed to fetch download link" ∈
      handle_subscription_event [("baha", failingLinkPlatform)] ({1, 2} : Finset ℕ)
        sampleSubMissing ∧
    publishedEpisodes
        (handle_subscription_event [("baha", failingLinkPlatform)] ({1, 2} : Finset ℕ)
          sampleSubMissing) ≠
      episodeKeys [(1, "ref1"), (2, "ref2"), (3, "ref3")] \ ({1, 2} : Finset ℕ) := by
  have hms : episodeKeys [(1, "ref1"), (2, "ref2"), (3, "ref3")] \ ({1, 2} : Finset ℕ) = {3} := by
    decide
  have hsort : (episodeKeys [(1, "ref1"), (2, "ref2"), (3, "ref3")] \ ({1, 2} : Finset ℕ)).sort
      (· ≤ ·) = [3] := by
    rw [hms]
    simp
  have h1 : ¬(some ({1, 2} : Finset ℕ).card = sampleSubMissing.media_metadata.episode_count ∧
      sampleSubMissing.media_metadata.episode_count = some sampleSubMissing.torrent_ids.length) := by
    decide
  have h2 : ¬(({1, 2} : Finset ℕ) ≠ torrentKeys sampleSubMissing) := by decide
  have h3 : ([("baha", failingLinkPlatform)].lookup sampleSubMissing.platform)
      = some failingLinkPlatform := rfl
  have h4 : failingLinkPlatform.get_episodes_list sampleSubMissing.subscription_url =
      .ok [(1, "ref1"), (2, "ref2"), (3, "ref3")] := rfl
  have h5 : ¬(episodeKeys [(1, "ref1"), (2, "ref2"), (3, "ref3")] \ ({1, 2} : Finset ℕ) = ∅) := by
    rw [hms]
    decide
  have key : handle_subscription_event [("baha", failingLinkPlatform)] ({1, 2} : Finset ℕ)
      sampleSubMissing =
      [ReconAction.platformEpisodesCall sampleSubMissing.subscription_url,
       ReconAction.logInfo "new episodes to download",
       ReconAction.platformLinkCall "ref3",
       ReconAction.logError "failed to fetch download link"] := by
    simp only [handle_subscription_event, if_neg h1, if_neg h2, h3, h4, if_neg h5, hsort]
    rfl
  refine ⟨hms, ?_, ?_, ?_⟩
  · rw [key]
    rfl
  · rw [key]
    simp
  · rw [key, hms]
    decide

/-- Inserting is a permutation of consing. -/
theorem insertStable_perm (x : HandlerEntry) (l : List HandlerEntry) :
    List.Perm (insertStable x l) (x :: l) := by
  induction l with
  | nil => rfl
  | cons y ys ih =>
    unfold insertStable
    split_ifs
    · exact (ih.cons y).trans (List.Perm.swap x y ys)
    · rfl

/-- Folding `insertStable` permutes the accumulated input. -/
theorem foldl_insertStable_perm (l : List HandlerEntry) :
    ∀ acc : List HandlerEntry,
      List.Perm (l.foldl (fun a x => insertStable x a) acc) (acc ++ l) := by
  induction l with
  | nil => intro acc; simp
  | cons x xs ih =>
    intro acc
    simp only [List.foldl_cons]
    refine (ih (insertStable x acc)).trans ?_
    refine ((insertStable_perm x acc).append_right xs).trans ?_
    simpa using List.perm_middle.symm

/-- The Python stable sort permutes its input. -/
theorem pySortByPriority_perm (l : List HandlerEntry) :
    List.Perm (pySortByPriority l) l := by
  simpa using foldl_insertStable_perm l []

/-- Inserting above every element appends at the end. -/
theorem insertStable_append_of_le (x : HandlerEntry) (acc : List HandlerEntry)
    (h : ∀ y ∈ acc, y.2 ≤ x.2) : insertStable x acc = acc ++ [x] := by
  induction acc with
  | nil => rfl
  | cons y ys ih =>
    unfold insertStable
    rw [if_pos (h y (by simp))]
    rw [ih (fun z hz => h z (by simp [hz]))]
    rfl

/-- Folding `insertStable` over an input that extends the accumulator
to a priority-sorted list is the identity. -/
theorem foldl_insertStable_of_sorted (l : List HandlerEntry) :
    ∀ acc : List HandlerEntry, prioSorted (acc ++ l) →
      l.foldl (fun a x => insertStable x a) acc = acc ++ l := by
  induction l with
  | nil => intro acc _; simp
  | cons x xs ih =>
    intro acc h
    simp only [List.foldl_cons]
    have hle : ∀ y ∈ acc, y.2 ≤ x.2 := by
      intro y hy
      have hcross := (List.pairwise_append.mp h).2.2
      exact hcross y hy x (by simp)
    rw [insertStable_append_of_le x acc hle]
    rw [ih (acc ++ [x]) (by simpa using h)]
    simp

/-- Stable sorting an already priority-sorted list changes nothing. -/
theorem pySortByPriority_of_sorted (l : List HandlerEntry) (h : prioSorted l) :
    pySortByPriority l = l := by
  simpa using foldl_insertStable_of_sorted l [] (by simpa using h)

/-- On the sorted lists maintained by `add_handler`, the
append-then-sort step is an ordered stable insertion. -/
theorem addHandlerEntry_eq_insertStable (l : List HandlerEntry) (hdl : HandlerInfo)
    (p : Int) (hs : prioSorted l) :
    addHandlerEntry l hdl p = insertStable (hdl, p) l := by
  unfold addHandlerEntry pySortByPriority
  rw [List.foldl_append]
  rw [foldl_insertStable_of_sorted l [] (by simpa using hs)]
  rfl

/-- Lexicographic sortedness implies priority sortedness. -/
theorem lexSorted_prioSorted (l : List HandlerEntry) (h : lexSorted l) : prioSorted l := by
  unfold lexSorted at h
  unfold prioSorted
  refine h.imp ?_
  intro a b hab
  rcases hab with h1 | ⟨h1, _⟩
  · exact le_of_lt h1
  · exact le_of_eq h1

/-- Stable insertion of an entry with a fresh largest handler id
preserves lexicographic sortedness. -/
theorem insertStable_lexSorted (x : HandlerEntry) (l : List HandlerEntry)
    (hl : lexSorted l) (hx : ∀ y ∈ l, y.1.hid < x.1.hid) :
    lexSorted (insertStable x l) := by
  induction l with
  | nil => simp [insertStable, lexSorted]
  | cons y ys ih =>
    rw [lexSorted, List.pairwise_cons] at hl
    obtain ⟨hy, hys⟩ := hl
    unfold insertStable
    split_ifs with hle
    · rw [lexSorted, List.pairwise_cons]
      constructor
      · intro z hz
        rcases List.mem_cons.mp ((insertStable_perm x ys).mem_iff.mp hz) with rfl | hz' 
        · rcases lt_or_eq_of_le hle with h1 | h1
          · exact Or.inl h1
          · exact Or.inr ⟨h1, hx y (by simp)⟩
        · exact hy z hz' 
      · exact ih hys (fun z hz => hx z (by simp [hz]))
    · push_neg at hle
      rw [lexSorted, List.pairwise_cons]
      constructor
      · intro z hz
        rcases List.mem_cons.mp hz with rfl | hz' 
        · exact Or.inl hle
        · have hyz : y.2 ≤ z.2 := by
            rcases hy z hz' with h1 | ⟨h1, _⟩
            · exact le_of_lt h1
            · exact le_of_eq h1
          exact Or.inl (lt_of_lt_of_le hle hyz)
      · rw [lexSorted, List.pairwise_cons] at *
        exact ⟨hy, hys⟩

/-- Invariant of the registration fold: starting from a
lexicographically sorted accumulator whose handler ids all precede the
remaining registrations (which are themselves in id order), the fold
yields a lexicographically sorted permutation of everything. -/
theorem buildHandlerList_aux (regs : List HandlerEntry) :
    ∀ acc : List HandlerEntry, lexSorted acc →
      (∀ y ∈ acc, ∀ x ∈ regs, y.1.hid < x.1.hid) →
      regs.Pairwise (fun a b => a.1.hid < b.1.hid) →
      lexSorted (regs.foldl (fun l hp => addHandlerEntry l hp.1 hp.2) acc) ∧
      List.Perm (regs.foldl (fun l hp => addHandlerEntry l hp.1 hp.2) acc) (acc ++ regs) := by
  induction regs with
  | nil =>
    intro acc hacc _ _
    exact ⟨hacc, by simp⟩
  | cons hp rest ih =>
    intro acc hacc hcross hreg
    simp only [List.foldl_cons]
    have hstep : addHandlerEntry acc hp.1 hp.2 = insertStable (hp.1, hp.2) acc :=
      addHandlerEntry_eq_insertStable acc hp.1 hp.2 (lexSorted_prioSorted acc hacc)
    rw [hstep]
    have hacc2 : lexSorted (insertStable hp acc) :=
      insertStable_lexSorted hp acc hacc (fun y hy => hcross y hy hp (by simp))
    have hperm2 : List.Perm (insertStable hp acc) (hp :: acc) := insertStable_perm hp acc
    have hcross2 : ∀ y ∈ insertStable hp acc, ∀ x ∈ rest, y.1.hid < x.1.hid := by
      intro y hy x hx
      rcases List.mem_cons.mp (hperm2.mem_iff.mp hy) with rfl | hy' 
      · exact (List.pairwise_cons.mp hreg).1 x hx
      · exact hcross y hy' x (by simp [hx])
    obtain ⟨hsorted, hperm⟩ :=
      ih (insertStable hp acc) hacc2 hcross2 (List.pairwise_cons.mp hreg).2
    refine ⟨hsorted, hperm.trans ?_⟩
    refine (hperm2.append_right rest).trans ?_
    simpa using List.perm_middle.symm

/-- C6: dispatching an event runs exactly the handlers registered for
its kind, sequentially, in non-decreasing priority order, with equal
priorities in registration order.  Registration order is encoded by
the strictly increasing handler ids of `regs` (the i-th registration
carries the i-th id). -/
theorem dispatch_priority_order (behav : Nat → Nat → Except String Unit)
    (regs : List HandlerEntry) (e : EventObj)
    (hreg : regs.Pairwise (fun a b => a.1.hid < b.1.hid)) :
    (handle_event behav [(e.kid, buildHandlerList regs)] e).Pairwise
      (fun r s => r.priority < s.priority ∨ (r.priority = s.priority ∧ r.hid < s.hid)) ∧
    List.Perm
      ((handle_event behav [(e.kid, buildHandlerList regs)] e).map
        (fun r => (r.hid, r.priority)))
      (regs.map (fun hp => (hp.1.hid, hp.2))) := by
  obtain ⟨hsorted, hperm⟩ :=
    buildHandlerList_aux regs [] (by simp [lexSorted]) (by simp) hreg
  have hlook : ((([(e.kid, buildHandlerList regs)] : HandlersMap).lookup e.kid).getD [])
      = buildHandlerList regs := by
    simp [List.lookup]
  rw [handle_event, hlook, runHandlers_eq_map]
  constructor
  · rw [List.pairwise_map]
    exact hsorted
  · rw [List.map_map]
    exact hperm.map (fun hp => (hp.1.hid, hp.2))

/-- C6 witness: four registrations with priorities 5, 1, 5, 1 (ids 0,
1, 2, 3) dispatch in the order (1,1), (1,3), (5,0), (5,2). -/
theorem dispatch_priority_order_witness :
    (handle_event okBehav [((0 : Nat), buildHandlerList sampleRegs)] ⟨0, 9⟩).Pairwise
      (fun r s => r.priority < s.priority ∨ (r.priority = s.priority ∧ r.hid < s.hid)) ∧
    List.Perm
      ((handle_event okBehav [((0 : Nat), buildHandlerList sampleRegs)] ⟨0, 9⟩).map
        (fun r => (r.hid, r.priority)))
      (sampleRegs.map (fun hp => (hp.1.hid, hp.2))) :=
  dispatch_priority_order okBehav sampleRegs ⟨0, 9⟩ (by decide)
